import Mathlib

/-!
Verification development for the MCP search-augmentation pipeline of
`mcp_search.py` (classes `MCPSearchEngine` and `MCPChatManager`).

The Python code is shallowly embedded as pure Lean functions.  External
collaborators (the decision model, the DuckDuckGo backend, the HTTP page
fetcher, the summarizer model and the final generation model) are modelled
as an `Oracles` record of functions; a call index is threaded so that
repeated calls to the same collaborator may behave differently.  Mutable
state of `MCPChatManager` (the `search_cache` dictionary) together with
instrumentation counters (how many times each collaborator was invoked) is
carried in an explicit state record `St`.

Python dynamic values returned by `json.loads` are modelled by the JSON
value type `JValue`; Python subscripting (`decision["need_search"]`),
truthiness (`if decision["need_search"]:`) and dict-key hashability are
modelled explicitly, so that the exceptions `chat_with_mcp` can raise
(`KeyError` / `TypeError`) are visible as `Except.error` outcomes.

Python string slicing `s[:n]` operates on code points; it is modelled by
`pySlice` which takes the first `n` characters.
-/

set_option autoImplicit false

namespace MCP

/-- A JSON value, as produced by `json.loads` on the decision model's reply. -/
inductive JValue where
  | null
  | bool (b : Bool)
  | num (n : Int)
  | str (s : String)
  | arr (xs : List JValue)
  | obj (fields : List (String × JValue))

/-- Python exceptions that can escape `chat_with_mcp` to the caller. -/
inductive PyErr where
  | keyError (key : String)
  | typeError (msg : String)
deriving DecidableEq

/-- Python truthiness of a JSON value (`if decision["need_search"]:`). -/
def JValue.truthy : JValue → Bool
  | .null => false
  | .bool b => b
  | .num n => decide (n ≠ 0)
  | .str s => decide (s ≠ "")
  | .arr xs => !xs.isEmpty
  | .obj fs => !fs.isEmpty

/-- Python subscripting `v[k]` on a JSON value: succeeds only on an object
that has the key, raising `KeyError` on a missing key and `TypeError` on a
non-object (as Python does for `None`, numbers, strings and lists when
indexed with a string key). -/
def JValue.sub (v : JValue) (k : String) : Except PyErr JValue :=
  match v with
  | .obj fields =>
    match fields.find? (fun p => decide (p.1 = k)) with
    | some p => .ok p.2
    | none => .error (.keyError k)
  | _ => .error (.typeError "value is not subscriptable with a string key")

/-- The hashable JSON values: the only values usable as Python dict keys
(`search_query in self.search_cache`).  Arrays and objects are unhashable. -/
inductive HKey where
  | null
  | bool (b : Bool)
  | num (n : Int)
  | str (s : String)
deriving DecidableEq

/-- Conversion of a JSON value to a dict key; `none` means unhashable
(a `TypeError` at the `in self.search_cache` membership test). -/
def JValue.toKey : JValue → Option HKey
  | .null => some .null
  | .bool b => some (.bool b)
  | .num n => some (.num n)
  | .str s => some (.str s)
  | .arr _ => none
  | .obj _ => none

/-- A raw hit yielded by the search backend (`ddgs.text`): a dict read with
`r.get('href', '')`, `r.get('title', '')`, `r.get('body', '')`.  Per the
external-interface contract the backend yields records of string fields
`href`/`title`/`body`; an absent field is `none` (so `.get` falls back to
the empty string). -/
structure RawHit where
  href : Option String
  title : Option String
  body : Option String
deriving DecidableEq

/-- One entry of the list built by `search_web`. -/
structure SearchResult where
  title : String
  snippet : String
  full_content : String
  url : String
deriving DecidableEq

/-- One entry of `MCPChatManager.search_cache`:
`{'summary': ..., 'results': ...}`. -/
structure CacheEntry where
  summary : String
  results : List SearchResult
deriving DecidableEq

/-- A chat message `{"role": ..., "content": ...}`. -/
structure Msg where
  role : String
  content : String
deriving DecidableEq

/-- The reply of a successful chat-completion call for the final
generation: `choices[0].message.content` plus the `usage` fields. -/
structure GenReply where
  content : String
  prompt_tokens : Nat
  completion_tokens : Nat
  total_tokens : Nat
deriving DecidableEq

/-- One search strategy of `search_web` (`region` is absent for the first
strategy, which omits the parameter). -/
structure Strategy where
  region : Option String
  safesearch : String
deriving DecidableEq

/-- The dict returned by `chat_with_mcp`.  `search_query` holds whatever
value `decision['search_query']` produced, hence a `JValue`. -/
structure ChatTurnResult where
  response : String
  tokens_used : Nat
  cost : ℚ
  search_performed : Bool
  search_query : JValue
  search_summary : String
  search_results : List SearchResult

/-- The character dict; only `character['name']` is ever read by the code,
so the character is modelled by that field. -/
structure Character where
  name : String
deriving DecidableEq

/-- External collaborators.  Each takes the index of the call (how many
calls to that collaborator happened before) so repeated calls may differ:
* `decide i user_message character_name`: outcome of the decision-model
  call plus `json.loads`: `.error e` models the API call raising,
  `.ok none` models a reply on which `json.loads` raises, and
  `.ok (some v)` a reply parsed to the JSON value `v`;
* `text i strat query max_results`: outcome of `ddgs.text` under strategy
  `strat` during the `i`-th `search_web` invocation;
* `page url`: outcome of the HTTP GET plus HTML extraction for `url`:
  `.error e` models any network/parse/timeout error, `.ok t` the text
  extracted by `soup.get_text(separator='\n', strip=True)`;
* `summ i query results`: outcome of the summarization-model call;
* `gen i model messages`: outcome of the final generation call. -/
structure Oracles where
  decide : Nat → String → String → Except String (Option JValue)
  text : Nat → Strategy → JValue → Nat → Except String (List RawHit)
  page : String → Except String String
  summ : Nat → JValue → List SearchResult → Except String String
  gen : Nat → String → List Msg → Except String GenReply

/-- Mutable state: the manager's `search_cache` (an association list,
newest entry first) plus instrumentation counters: number of
decision-model calls, `search_web` invocations, summarization-model calls
and final-generation calls made so far. -/
structure St where
  search_cache : List (HKey × CacheEntry)
  nDecide : Nat
  nSearch : Nat
  nSumm : Nat
  nGen : Nat
deriving DecidableEq

/-- A fresh manager state: empty cache, no calls made. -/
def St0 : St := ⟨[], 0, 0, 0, 0⟩

/-- Python `s[:n]`: the first `n` characters of `s`. -/
def pySlice (s : String) (n : Nat) : String := ⟨s.data.take n⟩

/-- The safe default returned by `should_search` on any caught failure:
`{"need_search": False, "search_query": "", "reason": "决策失败"}`
(the literal the code uses for "decision failed"). -/
def defaultDecision : JValue :=
  .obj [("need_search", .bool false), ("search_query", .str ""),
        ("reason", .str "决策失败")]

/-- `MCPSearchEngine.should_search`: one decision-model call; the parsed
JSON reply is returned as-is, and any exception raised by the call or by
`json.loads` is caught and mapped to `defaultDecision`. -/
def should_search (O : Oracles) (st : St) (user_message character_name : String) :
    JValue × St :=
  let st' := { st with nDecide := st.nDecide + 1 }
  match O.decide st.nDecide user_message character_name with
  | .ok (some v) => (v, st')
  | _ => (defaultDecision, st')

/-- Python `text.split('\n')` on the character list. -/
def splitNL : List Char → List (List Char)
  | [] => [[]]
  | c :: cs =>
    match splitNL cs with
    | [] => [[]]
    | l :: ls => if c = '\n' then [] :: l :: ls else (c :: l) :: ls

/-- Python `line.strip()`: remove leading and trailing whitespace. -/
def stripBoth (l : List Char) : List Char :=
  ((l.dropWhile Char.isWhitespace).reverse.dropWhile Char.isWhitespace).reverse

/-- Python `'\n'.join(lines)` on character lists. -/
def joinNL : List (List Char) → List Char
  | [] => []
  | l :: ls =>
    match ls with
    | [] => l
    | _ :: _ => l ++ '\n' :: joinNL ls

/-- The blank-line cleanup of `fetch_webpage_content`:
`lines = [line.strip() for line in text.split('\n') if line.strip()]`
followed by `'\n'.join(lines)`. -/
def collapseLines (text : String) : String :=
  ⟨joinNL (((splitNL text.data).map stripBoth).filter (fun l => l ≠ []))⟩

/-- `MCPSearchEngine.fetch_webpage_content`: on any error an empty string;
otherwise the extracted text with blank lines collapsed, truncated to
`max_length` characters plus `"..."` when longer than `max_length`.
The Python default for `max_length` is 3000. -/
def fetch_webpage_content (page : Except String String) (max_length : Nat) : String :=
  match page with
  | .error _ => ""
  | .ok raw =>
    let text := collapseLines raw
    if text.length > max_length then pySlice text max_length ++ "..." else text

/-- The ordered fallback strategies of `search_web`: unscoped, then global
(`wt-wt`), then `cn-zh` with safesearch off. -/
def search_strategies : List Strategy :=
  [⟨none, "moderate"⟩, ⟨some "wt-wt", "moderate"⟩, ⟨some "cn-zh", "off"⟩]

/-- Assembly of one `SearchResult` from a raw backend hit inside
`search_web`: `.get` with empty-string fallbacks, full text fetched via
`fetch_webpage_content` (default `max_length` 3000), and the snippet
substituted when the fetched text is empty. -/
def buildResult (O : Oracles) (r : RawHit) : SearchResult :=
  let url := r.href.getD ""
  let title := r.title.getD ""
  let snippet := r.body.getD ""
  let full_content := fetch_webpage_content (O.page url) 3000
  { title := title, snippet := snippet,
    full_content := if full_content = "" then snippet else full_content,
    url := url }

/-- The strategy loop of `search_web`: try each strategy in order; a
strategy that raises or returns no hits is skipped; the first strategy
with a non-empty hit list wins and its hits (only) are assembled. -/
def tryStrategies (O : Oracles) (call : Nat) (query : JValue) (max_results : Nat) :
    List Strategy → List SearchResult
  | [] => []
  | s :: rest =>
    match O.text call s query max_results with
    | .error _ => tryStrategies O call query max_results rest
    | .ok hits =>
      if hits = [] then tryStrategies O call query max_results rest
      else hits.map (buildResult O)

/-- `MCPSearchEngine.search_web`: runs the strategy loop (the Python
default for `max_results` is 8; `chat_with_mcp` passes 8 explicitly) and
counts the invocation. -/
def search_web (O : Oracles) (st : St) (query : JValue) (max_results : Nat) :
    List SearchResult × St :=
  (tryStrategies O st.nSearch query max_results search_strategies,
   { st with nSearch := st.nSearch + 1 })

/-- `MCPSearchEngine.summarize_search_results`: the fixed marker on an
empty list with no model call; otherwise one summarization-model call,
falling back on failure to the concatenation of the first 5 results'
titles and first 300 characters of content. -/
def summarize_search_results (O : Oracles) (st : St) (query : JValue)
    (results : List SearchResult) : String × St :=
  if results = [] then ("未找到相关信息", st)
  else
    let st' := { st with nSumm := st.nSumm + 1 }
    match O.summ st.nSumm query results with
    | .ok summary => (summary, st')
    | .error _ =>
      (String.intercalate "\n\n"
        ((results.take 5).map
          (fun r => "【" ++ r.title ++ "】\n" ++ pySlice r.full_content 300)),
       st')

/-- `MCPSearchEngine.enhance_context`: the fixed augmentation template
embedding the user question, the summary and the character name. -/
def enhance_context (user_message character_name search_results_summary : String) :
    String :=
  "\n【🔍 MCP背景知识增强】\n用户询问：" ++ user_message ++
  "\n\n━━━━━━━━━━━━━━━━━━━━━━━━━━━━━━━━━━━━━━━━\n" ++
  "📚 相关真实资料（来自网络搜索并经AI提取）：\n\n" ++
  search_results_summary ++
  "\n\n━━━━━━━━━━━━━━━━━━━━━━━━━━━━━━━━━━━━━━━━\n\n" ++
  "**重要指示：**\n" ++
  "1. **优先使用真实资料**：以上搜索结果是从可靠来源提取的真实信息，请将其作为回答的主要依据\n" ++
  "2. **融入角色人格**：用" ++ character_name ++
  "的口吻、语言风格、性格特点来表达这些信息\n" ++
  "3. **详细且生动**：基于这些详实的背景资料，给出丰富、具体、有细节的回答\n" ++
  "4. **第一人称视角**：如果是角色自身的事情，用第一人称讲述（\"我当时...\"）\n" ++
  "5. **自然引用**：将背景知识自然地融入对话中，就像角色在回忆或讲述自己的经历\n" ++
  "6. **保持真实性**：不要编造搜索结果中没有的信息，如果某些细节不确定，可以说\"我记得大概是...\"\n\n" ++
  "请现在以" ++ character_name ++ "的身份，基于上述真实资料，回答用户的问题。"

/-- Lookup in the `search_cache` dict. -/
def lookupCache (cache : List (HKey × CacheEntry)) (k : HKey) : Option CacheEntry :=
  (cache.find? (fun p => decide (p.1 = k))).map (fun p => p.2)

/-- The search phase of `chat_with_mcp` (cache lookup, search, summarize,
cache store): returns the summary, the result list and the updated state.
`sq` is the raw `decision['search_query']` value, `k` its dict key. -/
def searchPhase (O : Oracles) (st : St) (sq : JValue) (k : HKey) :
    String × List SearchResult × St :=
  match lookupCache st.search_cache k with
  | some entry => (entry.summary, entry.results, st)
  | none =>
    let sres := search_web O st sq 8
    let search_results := sres.1
    let st1 := sres.2
    if search_results = [] then ("未找到相关信息", [], st1)
    else
      let sums := summarize_search_results O st1 sq search_results
      let search_summary := sums.1
      let st2 := sums.2
      (search_summary, search_results,
       { st2 with search_cache :=
          (k, ⟨search_summary, search_results⟩) :: st2.search_cache })

/-- The result dict as initialized at the top of `chat_with_mcp`. -/
def emptyResult : ChatTurnResult :=
  { response := "", tokens_used := 0, cost := 0, search_performed := false,
    search_query := .str "", search_summary := "", search_results := [] }

/-- The message list assembled by `chat_with_mcp`: system prompt, then the
conversation history in order, then the current user message. -/
def chat_messages (system_prompt : String) (history : List Msg)
    (user_message : String) : List Msg :=
  ⟨"system", system_prompt⟩ :: (history ++ [⟨"user", user_message⟩])

/-- Steps 5–7 of `chat_with_mcp`: assemble messages, call the generation
model; on success fill `response`, `tokens_used` and `cost`
(`prompt_tokens * 0.000005 + completion_tokens * 0.000015`); on failure
set `response` to the apology string embedding the error and leave the
other fields of `result` untouched.  Never raises. -/
def generate_reply (O : Oracles) (st : St) (result : ChatTurnResult)
    (system_prompt user_message : String) (history : List Msg) (model : String) :
    Except PyErr ChatTurnResult × St :=
  let messages := chat_messages system_prompt history user_message
  let st' := { st with nGen := st.nGen + 1 }
  match O.gen st.nGen model messages with
  | .ok g =>
    (.ok { result with
            response := g.content,
            tokens_used := g.total_tokens,
            cost := (g.prompt_tokens : ℚ) * (5 / 1000000) +
                    (g.completion_tokens : ℚ) * (15 / 1000000) },
     st')
  | .error e =>
    (.ok { result with response := "抱歉，回复生成失败：" ++ e }, st')

/-- `MCPChatManager.chat_with_mcp`.  The Python defaults are
`enable_search=True`, `model="gpt-4o-ca"` (temperature and max_tokens are
passed through to the generation call and are part of the `gen` oracle).
The dynamic reads `decision['need_search']` and `decision['search_query']`
and the hashability requirement of the dict-membership test
`search_query in self.search_cache` are the points where a Python
exception can escape to the caller; they surface as `.error`. -/
def chat_with_mcp (O : Oracles) (st : St) (user_message : String)
    (character : Character) (system_prompt : String)
    (conversation_history : List Msg) (enable_search : Bool) (model : String) :
    Except PyErr ChatTurnResult × St :=
  if enable_search then
    let dres := should_search O st user_message character.name
    let decision := dres.1
    let st1 := dres.2
    match decision.sub "need_search" with
    | .error e => (.error e, st1)
    | .ok ns =>
      if ns.truthy then
        match decision.sub "search_query" with
        | .error e => (.error e, st1)
        | .ok sq =>
          match sq.toKey with
          | none => (.error (.typeError "unhashable type"), st1)
          | some k =>
            let sres := searchPhase O st1 sq k
            let search_summary := sres.1
            let search_results := sres.2.1
            let st2 := sres.2.2
            let enhanced :=
              enhance_context user_message character.name search_summary
            let system_prompt2 := system_prompt ++ "\n\n" ++ enhanced
            let result1 :=
              { emptyResult with
                  search_performed := true,
                  search_query := sq,
                  search_summary := search_summary,
                  search_results := search_results }
            generate_reply O st2 result1 system_prompt2 user_message
              conversation_history model
      else
        generate_reply O st1 emptyResult system_prompt user_message
          conversation_history model
  else
    generate_reply O st emptyResult system_prompt user_message
      conversation_history model

end MCP

namespace MCP

/-- A decision reply conforming to the documented three-field schema in the
two fields the orchestrator actually reads: an object whose
`need_search` is a boolean and whose `search_query` is a string. -/
def wellFormedDecision (v : JValue) : Prop :=
  (∃ b, v.sub "need_search" = .ok (.bool b)) ∧
  (∃ s, v.sub "search_query" = .ok (.str s))

/-- The cache invariant: every stored entry has a non-empty result list. -/
def cacheInv (st : St) : Prop := ∀ p ∈ st.search_cache, p.2.results ≠ []

/-- A well-formed decision reply requesting a search for query `q`. -/
def decisionYes (q : String) : JValue :=
  .obj [("need_search", .bool true), ("search_query", .str q),
        ("reason", .str "需要背景资料")]

/-- Concrete collaborators: the decision model always requests a search,
but the backend finds nothing under any strategy. -/
def oracleNoResults : Oracles :=
  { decide := fun _ _ _ => .ok (some (decisionYes "泰山 传说")),
    text := fun _ _ _ _ => .ok [],
    page := fun _ => .error "timeout",
    summ := fun _ _ _ => .error "fail",
    gen := fun _ _ _ => .ok ⟨"好的", 100, 50, 150⟩ }

/-- Concrete collaborators: the decision model always requests a search and
the first strategy of the backend returns one hit with a proper `href`. -/
def oracleGoodSearch : Oracles :=
  { decide := fun _ _ _ => .ok (some (decisionYes "泰山 传说")),
    text := fun _ s _ _ =>
      if s.region = none then .ok [⟨some "http://a", some "标题", some "摘要"⟩]
      else .ok [],
    page := fun _ => .ok "网页内容",
    summ := fun _ _ _ => .ok "总结好了",
    gen := fun _ _ _ => .ok ⟨"回复", 100, 50, 150⟩ }

/-- Concrete collaborators: the decision model replies with the valid JSON
object `{}`, which lacks every documented field. -/
def oracleBadReply : Oracles :=
  { decide := fun _ _ _ => .ok (some (.obj [])),
    text := fun _ _ _ _ => .ok [],
    page := fun _ => .error "timeout",
    summ := fun _ _ _ => .error "fail",
    gen := fun _ _ _ => .error "fail" }

/-- Concrete collaborators: the decision-model call itself raises and the
generation call fails with message "boom". -/
def oracleDecideRaises : Oracles :=
  { decide := fun _ _ _ => .error "网络错误",
    text := fun _ _ _ _ => .ok [],
    page := fun _ => .error "timeout",
    summ := fun _ _ _ => .error "fail",
    gen := fun _ _ _ => .error "boom" }

/-- Concrete collaborators: the backend's first strategy yields a hit
without an `href` field. -/
def oracleNoHref : Oracles :=
  { decide := fun _ _ _ => .ok none,
    text := fun _ s _ _ =>
      if s.region = none then .ok [⟨none, some "标题", some "摘要"⟩] else .ok [],
    page := fun _ => .error "timeout",
    summ := fun _ _ _ => .error "fail",
    gen := fun _ _ _ => .error "fail" }

/-- Concrete collaborators: every backend hit carries a non-empty `href`. -/
def oracleHref : Oracles :=
  { decide := fun _ _ _ => .ok none,
    text := fun _ _ _ _ => .ok [⟨some "http://a", some "标题", some "摘要"⟩],
    page := fun _ => .ok "网页内容",
    summ := fun _ _ _ => .error "fail",
    gen := fun _ _ _ => .error "fail" }

/-- Concrete collaborators: every generation-model call fails with "boom". -/
def oracleGenFails : Oracles :=
  { decide := fun _ _ _ => .error "网络错误",
    text := fun _ _ _ _ => .ok [],
    page := fun _ => .error "timeout",
    summ := fun _ _ _ => .error "fail",
    gen := fun _ _ _ => .error "boom" }

/-- Concrete collaborators: the summarization-model call fails with "boom". -/
def oracleSummFails : Oracles :=
  { decide := fun _ _ _ => .ok none,
    text := fun _ _ _ _ => .ok [],
    page := fun _ => .error "timeout",
    summ := fun _ _ _ => .error "boom",
    gen := fun _ _ _ => .error "fail" }

/-- Concrete collaborators: the generation call succeeds with usage
100 prompt tokens, 50 completion tokens, 150 total. -/
def oracleGenOk : Oracles :=
  { decide := fun _ _ _ => .error "网络错误",
    text := fun _ _ _ _ => .ok [],
    page := fun _ => .error "timeout",
    summ := fun _ _ _ => .error "fail",
    gen := fun _ _ _ => .ok ⟨"好的", 100, 50, 150⟩ }

/-- A sample search result used to instantiate hypotheses. -/
def sampleResult : SearchResult :=
  ⟨"标题", "摘要", "网页全文内容", "http://a"⟩

end MCP

namespace MCP

/-- `should_search` always bumps the decision counter and nothing else. -/
theorem should_search_st (O : Oracles) (st : St) (u c : String) :
    (should_search O st u c).2 = { st with nDecide := st.nDecide + 1 } := by
  unfold should_search
  split <;> rfl

/-- `should_search` returns the parsed reply unvalidated on success. -/
theorem should_search_of_ok (O : Oracles) (st : St) (u c : String) (v : JValue)
    (h : O.decide st.nDecide u c = .ok (some v)) :
    should_search O st u c = (v, { st with nDecide := st.nDecide + 1 }) := by
  unfold should_search
  rw [h]

/-- `should_search` returns the safe default when the call raises or the
reply is not valid JSON. -/
theorem should_search_of_fail (O : Oracles) (st : St) (u c : String)
    (h : (∃ e, O.decide st.nDecide u c = .error e) ∨
         O.decide st.nDecide u c = .ok none) :
    should_search O st u c =
      (defaultDecision, { st with nDecide := st.nDecide + 1 }) := by
  unfold should_search
  rcases h with ⟨e, he⟩ | he <;> rw [he]

/-- Unfolding of `generate_reply` on a successful generation call. -/
theorem generate_reply_gen_ok (O : Oracles) (st : St) (r : ChatTurnResult)
    (sp u : String) (hist : List Msg) (m : String) (g : GenReply)
    (h : O.gen st.nGen m (chat_messages sp hist u) = .ok g) :
    generate_reply O st r sp u hist m =
      (.ok { r with
              response := g.content,
              tokens_used := g.total_tokens,
              cost := (g.prompt_tokens : ℚ) * (5 / 1000000) +
                      (g.completion_tokens : ℚ) * (15 / 1000000) },
       { st with nGen := st.nGen + 1 }) := by
  simp [generate_reply, h]

/-- Unfolding of `generate_reply` on a failing generation call. -/
theorem generate_reply_gen_err (O : Oracles) (st : St) (r : ChatTurnResult)
    (sp u : String) (hist : List Msg) (m : String) (e : String)
    (h : O.gen st.nGen m (chat_messages sp hist u) = .error e) :
    generate_reply O st r sp u hist m =
      (.ok { r with response := "抱歉，回复生成失败：" ++ e },
       { st with nGen := st.nGen + 1 }) := by
  simp [generate_reply, h]

/-- `generate_reply` bumps the generation counter and nothing else. -/
theorem generate_reply_st (O : Oracles) (st : St) (r : ChatTurnResult)
    (sp u : String) (hist : List Msg) (m : String) :
    (generate_reply O st r sp u hist m).2 = { st with nGen := st.nGen + 1 } := by
  cases h : O.gen st.nGen m (chat_messages sp hist u) with
  | ok g => rw [generate_reply_gen_ok O st r sp u hist m g h]
  | error e => rw [generate_reply_gen_err O st r sp u hist m e h]

/-- `generate_reply` never raises and preserves the search-related fields;
`tokens_used` and `cost` are either kept or set from the usage counts. -/
theorem generate_reply_ok (O : Oracles) (st : St) (r : ChatTurnResult)
    (sp u : String) (hist : List Msg) (m : String) :
    ∃ r', generate_reply O st r sp u hist m =
        (.ok r', { st with nGen := st.nGen + 1 }) ∧
      r'.search_performed = r.search_performed ∧
      r'.search_query = r.search_query ∧
      r'.search_summary = r.search_summary ∧
      r'.search_results = r.search_results ∧
      (r'.tokens_used = r.tokens_used ∧ r'.cost = r.cost ∨
        ∃ g : GenReply, r'.tokens_used = g.total_tokens ∧
          r'.cost = (g.prompt_tokens : ℚ) * (5 / 1000000) +
                    (g.completion_tokens : ℚ) * (15 / 1000000)) := by
  cases h : O.gen st.nGen m (chat_messages sp hist u) with
  | ok g =>
    rw [generate_reply_gen_ok O st r sp u hist m g h]
    exact ⟨_, rfl, rfl, rfl, rfl, rfl, Or.inr ⟨g, rfl, rfl⟩⟩
  | error e =>
    rw [generate_reply_gen_err O st r sp u hist m e h]
    exact ⟨_, rfl, rfl, rfl, rfl, rfl, Or.inl ⟨rfl, rfl⟩⟩

/-- On a non-empty result list `summarize_search_results` makes exactly one
summarization-model call and bumps only that counter. -/
theorem summarize_nonempty_spec (O : Oracles) (st : St) (q : JValue)
    (results : List SearchResult) (h : results ≠ []) :
    ∃ sm, summarize_search_results O st q results =
      (sm, { st with nSumm := st.nSumm + 1 }) := by
  unfold summarize_search_results
  rw [if_neg h]
  cases O.summ st.nSumm q results <;> exact ⟨_, rfl⟩

/-- The search phase never touches the generation or decision counters,
and either leaves the cache alone or prepends one entry whose result list
is non-empty. -/
theorem searchPhase_st (O : Oracles) (st : St) (sq : JValue) (k : HKey) :
    (searchPhase O st sq k).2.2.nGen = st.nGen ∧
    (searchPhase O st sq k).2.2.nDecide = st.nDecide ∧
    ((searchPhase O st sq k).2.2.search_cache = st.search_cache ∨
      ∃ s rs, rs ≠ [] ∧
        (searchPhase O st sq k).2.2.search_cache =
          (k, CacheEntry.mk s rs) :: st.search_cache) := by
  unfold searchPhase
  cases h : lookupCache st.search_cache k with
  | some entry => exact ⟨rfl, rfl, Or.inl rfl⟩
  | none =>
    simp only
    by_cases he : (search_web O st sq 8).1 = []
    · rw [if_pos he]
      exact ⟨rfl, rfl, Or.inl rfl⟩
    · rw [if_neg he]
      obtain ⟨sm, hsm⟩ :=
        summarize_nonempty_spec O (search_web O st sq 8).2 sq
          (search_web O st sq 8).1 he
      rw [hsm]
      exact ⟨rfl, rfl, Or.inr ⟨sm, (search_web O st sq 8).1, he, rfl⟩⟩

/-- Case analysis on a chat turn: it either raises at one of the dynamic
reads of the decision reply (leaving the cache unchanged), or it reduces to
`generate_reply` on a result record with zero `tokens_used`/`cost`, a state
with the original generation counter, and a cache extended by at most one
entry with non-empty results. -/
theorem chat_cases (O : Oracles) (st : St) (u : String) (ch : Character)
    (sp : String) (hist : List Msg) (en : Bool) (m : String) :
    (∃ e st', chat_with_mcp O st u ch sp hist en m = (.error e, st') ∧
       st'.search_cache = st.search_cache) ∨
    (∃ st2 r0 sp2, chat_with_mcp O st u ch sp hist en m =
        generate_reply O st2 r0 sp2 u hist m ∧
      r0.tokens_used = 0 ∧ r0.cost = 0 ∧ st2.nGen = st.nGen ∧
      (st2.search_cache = st.search_cache ∨
        ∃ k s rs, rs ≠ [] ∧
          st2.search_cache = (k, CacheEntry.mk s rs) :: st.search_cache)) := by
  cases en with
  | false =>
    right
    exact ⟨st, emptyResult, sp, by simp [chat_with_mcp], rfl, rfl, rfl,
      Or.inl rfl⟩
  | true =>
    simp only [chat_with_mcp, if_true]
    split
    · rename_i e heq
      left
      exact ⟨e, _, rfl, by rw [should_search_st]⟩
    · rename_i ns heq
      split
      · split
        · rename_i e heq2
          left
          exact ⟨e, _, rfl, by rw [should_search_st]⟩
        · rename_i sq heq2
          split
          · left
            exact ⟨_, _, rfl, by rw [should_search_st]⟩
          · rename_i k heq3
            right
            refine ⟨_, _, _, rfl, rfl, rfl, ?_, ?_⟩
            · rw [(searchPhase_st O _ sq k).1, should_search_st]
            · rcases (searchPhase_st O ((should_search O st u ch.name).2) sq
                  k).2.2 with hc | ⟨s, rs, hrs, hc⟩
              · left
                rw [hc, should_search_st]
              · right
                exact ⟨k, s, rs, hrs, by rw [hc, should_search_st]⟩
      · right
        exact ⟨_, emptyResult, sp, rfl, rfl, rfl, by rw [should_search_st],
          Or.inl (by rw [should_search_st])⟩

/-- The safe default conforms to the documented decision schema. -/
theorem defaultDecision_wf : wellFormedDecision defaultDecision :=
  ⟨⟨false, rfl⟩, ⟨"", rfl⟩⟩

/-- A turn whose decision value conforms to the documented schema cannot
raise. -/
theorem chat_total_of_decision (O : Oracles) (st : St) (u : String)
    (ch : Character) (sp : String) (hist : List Msg) (m : String) (d : JValue)
    (hd : should_search O st u ch.name =
      (d, { st with nDecide := st.nDecide + 1 }))
    (hwf : wellFormedDecision d) :
    ∃ r st', chat_with_mcp O st u ch sp hist true m = (.ok r, st') := by
  obtain ⟨⟨b, hb⟩, ⟨s, hs⟩⟩ := hwf
  simp only [chat_with_mcp, if_true, hd, hb]
  cases b with
  | false =>
    simp only [JValue.truthy, Bool.false_eq_true, if_false]
    obtain ⟨r', heq, _⟩ := generate_reply_ok O _ emptyResult sp u hist m
    exact ⟨r', _, heq⟩
  | true =>
    simp only [JValue.truthy, if_true, hs, JValue.toKey]
    obtain ⟨r', heq, _⟩ := generate_reply_ok O _ _ _ u hist m
    exact ⟨r', _, heq⟩

/-- When the backend returns no hit for any strategy, the strategy loop
produces the empty list. -/
theorem tryStrategies_of_empty_backend (O : Oracles) (call : Nat) (q : JValue)
    (n : Nat) (H : ∀ c s qq nn, O.text c s qq nn = .ok []) :
    ∀ L, tryStrategies O call q n L = [] := by
  intro L
  induction L with
  | nil => rfl
  | cons s rest ih => simp only [tryStrategies, H, ih, List.map_nil, ite_self]

/-- Every chat turn preserves the invariant that all cached entries hold a
non-empty result list. -/
theorem chat_preserves_cacheInv (O : Oracles) (st : St) (u : String)
    (ch : Character) (sp : String) (hist : List Msg) (en : Bool) (m : String)
    (hinv : cacheInv st) :
    cacheInv (chat_with_mcp O st u ch sp hist en m).2 := by
  rcases chat_cases O st u ch sp hist en m with
    ⟨e', st', heq, hc⟩ | ⟨st2, r0, sp2, heq, _, _, _, hdisj⟩
  · rw [heq]
    intro p hp
    rw [hc] at hp
    exact hinv p hp
  · rw [heq, generate_reply_st]
    intro p hp
    simp only at hp
    rcases hdisj with hc | ⟨k, s, rs, hrs, hc⟩
    · rw [hc] at hp
      exact hinv p hp
    · rw [hc] at hp
      rcases List.mem_cons.mp hp with h | h
      · rw [h]
        exact hrs
      · exact hinv p h

/-- Two fresh turns that both decide to search for `q` while the backend
finds nothing: nothing is ever cached and the search runs twice. -/
theorem empty_search_rerun (O : Oracles) (q u1 c1 sp1 u2 c2 sp2 : String)
    (h1 h2 : List Msg) (m1 m2 : String) (d1 d2 ns1 ns2 : JValue)
    (Hd1 : O.decide 0 u1 c1 = .ok (some d1))
    (Hn1 : d1.sub "need_search" = .ok ns1)
    (Ht1 : ns1.truthy = true)
    (Hq1 : d1.sub "search_query" = .ok (.str q))
    (Hd2 : O.decide 1 u2 c2 = .ok (some d2))
    (Hn2 : d2.sub "need_search" = .ok ns2)
    (Ht2 : ns2.truthy = true)
    (Hq2 : d2.sub "search_query" = .ok (.str q))
    (Htext : ∀ c s qq nn, O.text c s qq nn = .ok []) :
    (chat_with_mcp O St0 u1 ⟨c1⟩ sp1 h1 true m1).2.search_cache = [] ∧
    (chat_with_mcp O (chat_with_mcp O St0 u1 ⟨c1⟩ sp1 h1 true m1).2
      u2 ⟨c2⟩ sp2 h2 true m2).2.search_cache = [] ∧
    (chat_with_mcp O (chat_with_mcp O St0 u1 ⟨c1⟩ sp1 h1 true m1).2
      u2 ⟨c2⟩ sp2 h2 true m2).2.nSearch = 2 := by
  have hss1 : should_search O St0 u1 c1 = (d1, (⟨[], 1, 0, 0, 0⟩ : St)) :=
    should_search_of_ok O St0 u1 c1 d1 Hd1
  have hsw1 : (search_web O (⟨[], 1, 0, 0, 0⟩ : St) (.str q) 8).1 = [] :=
    tryStrategies_of_empty_backend O 0 (.str q) 8 Htext search_strategies
  have hsp1 : searchPhase O (⟨[], 1, 0, 0, 0⟩ : St) (.str q) (HKey.str q) =
      ("未找到相关信息", [], (⟨[], 1, 1, 0, 0⟩ : St)) := by
    simp only [searchPhase,
      show lookupCache (⟨[], 1, 0, 0, 0⟩ : St).search_cache (HKey.str q) = none
        from rfl,
      hsw1, eq_self_iff_true, if_true,
      show (search_web O (⟨[], 1, 0, 0, 0⟩ : St) (.str q) 8).2 =
        (⟨[], 1, 1, 0, 0⟩ : St) from rfl]
  have hrun1 : chat_with_mcp O St0 u1 ⟨c1⟩ sp1 h1 true m1 =
      generate_reply O (⟨[], 1, 1, 0, 0⟩ : St)
        { emptyResult with
            search_performed := true,
            search_query := .str q,
            search_summary := "未找到相关信息",
            search_results := [] }
        (sp1 ++ "\n\n" ++ enhance_context u1 c1 "未找到相关信息") u1 h1 m1 := by
    simp only [chat_with_mcp, if_true, hss1, Hn1, if_pos Ht1, Hq1,
      JValue.toKey, hsp1]
  have hst1 : (chat_with_mcp O St0 u1 ⟨c1⟩ sp1 h1 true m1).2 =
      (⟨[], 1, 1, 0, 1⟩ : St) := by
    rw [hrun1, generate_reply_st]
  have hss2 : should_search O (⟨[], 1, 1, 0, 1⟩ : St) u2 c2 =
      (d2, (⟨[], 2, 1, 0, 1⟩ : St)) :=
    should_search_of_ok O _ u2 c2 d2 Hd2
  have hsw2 : (search_web O (⟨[], 2, 1, 0, 1⟩ : St) (.str q) 8).1 = [] :=
    tryStrategies_of_empty_backend O 1 (.str q) 8 Htext search_strategies
  have hsp2 : searchPhase O (⟨[], 2, 1, 0, 1⟩ : St) (.str q) (HKey.str q) =
      ("未找到相关信息", [], (⟨[], 2, 2, 0, 1⟩ : St)) := by
    simp only [searchPhase,
      show lookupCache (⟨[], 2, 1, 0, 1⟩ : St).search_cache (HKey.str q) = none
        from rfl,
      hsw2, eq_self_iff_true, if_true,
      show (search_web O (⟨[], 2, 1, 0, 1⟩ : St) (.str q) 8).2 =
        (⟨[], 2, 2, 0, 1⟩ : St) from rfl]
  have hrun2 : chat_with_mcp O (⟨[], 1, 1, 0, 1⟩ : St) u2 ⟨c2⟩ sp2 h2 true m2 =
      generate_reply O (⟨[], 2, 2, 0, 1⟩ : St)
        { emptyResult with
            search_performed := true,
            search_query := .str q,
            search_summary := "未找到相关信息",
            search_results := [] }
        (sp2 ++ "\n\n" ++ enhance_context u2 c2 "未找到相关信息") u2 h2 m2 := by
    simp only [chat_with_mcp, if_true, hss2, Hn2, if_pos Ht2, Hq2,
      JValue.toKey, hsp2]
  have hst2 : (chat_with_mcp O (⟨[], 1, 1, 0, 1⟩ : St) u2 ⟨c2⟩ sp2 h2 true
      m2).2 = (⟨[], 2, 2, 0, 2⟩ : St) := by
    rw [hrun2, generate_reply_st]
  rw [hst1]
  exact ⟨rfl, by rw [hst2], by rw [hst2]⟩

end MCP

namespace MCP

/-- C7: for every query and state, `summarize_search_results` applied to an
empty result list returns the fixed no-information marker "未找到相关信息"
and performs no model call: the state (in particular the
summarization-call counter `nSumm`) is returned unchanged. -/
theorem summarize_empty_no_call (O : Oracles) (st : St) (q : JValue) :
    summarize_search_results O st q [] = ("未找到相关信息", st) := rfl

/-- C8: for every `max_length` N and every fetched page whose extracted,
blank-line-collapsed text is longer than N characters,
`fetch_webpage_content` returns a string of length N + 3 that ends in the
ellipsis marker "...". -/
theorem fetch_truncation (page : String) (N : Nat)
    (h : N < (collapseLines page).length) :
    (fetch_webpage_content (.ok page) N).length = N + 3 ∧
    ∃ s, fetch_webpage_content (.ok page) N = s ++ "..." := by
  unfold fetch_webpage_content
  simp only
  rw [if_pos h]
  constructor
  · rw [String.length_append]
    have h1 : (pySlice (collapseLines page) N).length = N := by
      show ((collapseLines page).data.take N).length = N
      rw [List.length_take]
      exact Nat.min_eq_left (Nat.le_of_lt h)
    rw [h1]
    rfl
  · exact ⟨_, rfl⟩

/-- C8 witness: on the page text "第一行\n\n第二行内容" with max_length 3
the collapsed text has 8 characters, so the fetch result has length 6 and
ends in "...". -/
theorem fetch_truncation_witness :
    (fetch_webpage_content (.ok "第一行\n\n第二行内容") 3).length = 3 + 3 ∧
    ∃ s, fetch_webpage_content (.ok "第一行\n\n第二行内容") 3 = s ++ "..." :=
  fetch_truncation "第一行\n\n第二行内容" 3 (by decide)

/-- C6: if the summarization model call fails and the result list is
non-empty, `summarize_search_results` deterministically returns the
fallback built from the first 5 results' titles and the first 300
characters of each result's `full_content`, with no further model call
(only the one failed call is counted). -/
theorem summarize_model_failure_fallback (O : Oracles) (st : St) (q : JValue)
    (results : List SearchResult) (e : String)
    (hne : results ≠ []) (hfail : O.summ st.nSumm q results = .error e) :
    summarize_search_results O st q results =
      (String.intercalate "\n\n"
        ((results.take 5).map
          (fun r => "【" ++ r.title ++ "】\n" ++ pySlice r.full_content 300)),
       { st with nSumm := st.nSumm + 1 }) := by
  unfold summarize_search_results
  rw [if_neg hne, hfail]

/-- C6 witness: with a summarizer that fails with "boom" and one result,
the fallback string is produced and only the failed call is counted. -/
theorem summarize_model_failure_fallback_witness :
    summarize_search_results oracleSummFails St0 (.str "泰山") [sampleResult] =
      (String.intercalate "\n\n"
        (([sampleResult].take 5).map
          (fun r => "【" ++ r.title ++ "】\n" ++ pySlice r.full_content 300)),
       ⟨[], 0, 0, 1, 0⟩) :=
  summarize_model_failure_fallback oracleSummFails St0 (.str "泰山")
    [sampleResult] "boom" (by decide) rfl

/-- C5: if the final generation model call fails (with message e), any
`ChatTurnResult` the turn returns has `response` equal to the fixed
apology string embedding the error message, and `tokens_used` and `cost`
remain zero. -/
theorem generation_failure_apology (O : Oracles) (st : St) (u : String)
    (ch : Character) (sp : String) (hist : List Msg) (en : Bool) (m e : String)
    (Hg : ∀ n mm msgs, O.gen n mm msgs = .error e) (r : ChatTurnResult)
    (h : (chat_with_mcp O st u ch sp hist en m).1 = .ok r) :
    r.response = "抱歉，回复生成失败：" ++ e ∧ r.tokens_used = 0 ∧ r.cost = 0 := by
  rcases chat_cases O st u ch sp hist en m with
    ⟨e', st', heq, _⟩ | ⟨st2, r0, sp2, heq, ht, hc, _, _⟩
  · rw [heq] at h
    simp at h
  · rw [heq, generate_reply_gen_err O st2 r0 sp2 u hist m e (Hg _ _ _)] at h
    simp only at h
    injection h with h
    rw [← h]
    exact ⟨rfl, ht, hc⟩

/-- C5 witness: with a generation model that always fails with "boom" (and
a failing decision step), the turn returns the apology result with zero
tokens and cost. -/
theorem generation_failure_apology_witness :
    (∀ n mm msgs, oracleGenFails.gen n mm msgs = .error "boom") ∧
    (({ emptyResult with
         response := "抱歉，回复生成失败：boom" } : ChatTurnResult).response =
       "抱歉，回复生成失败：boom" ∧
     ({ emptyResult with
         response := "抱歉，回复生成失败：boom" } : ChatTurnResult).tokens_used
       = 0 ∧
     ({ emptyResult with
         response := "抱歉，回复生成失败：boom" } : ChatTurnResult).cost = 0) :=
  ⟨fun _ _ _ => rfl,
    generation_failure_apology oracleGenFails St0 "你好" ⟨"悟空"⟩ "sys" [] true
      "gpt-4o-ca" "boom" (fun _ _ _ => rfl)
      { emptyResult with response := "抱歉，回复生成失败：boom" } rfl⟩

/-- C9: in every turn that returns a result, `tokens_used` and `cost` are
exactly the values determined by the single final-generation call (made at
index `st.nGen`, which the decision and summarization calls never touch):
on success the usage formula, on failure zero.  The decision-model call
and the summarization-model call contribute nothing to either field, even
when a search is performed. -/
theorem cost_counts_only_generation (O : Oracles) (st : St) (u : String)
    (ch : Character) (sp : String) (hist : List Msg) (en : Bool) (m : String)
    (r : ChatTurnResult)
    (h : (chat_with_mcp O st u ch sp hist en m).1 = .ok r) :
    (∃ msgs g, O.gen st.nGen m msgs = .ok g ∧
       r.tokens_used = g.total_tokens ∧
       r.cost = (g.prompt_tokens : ℚ) * (5 / 1000000) +
                (g.completion_tokens : ℚ) * (15 / 1000000)) ∨
    (∃ msgs e, O.gen st.nGen m msgs = .error e ∧
       r.tokens_used = 0 ∧ r.cost = 0) := by
  rcases chat_cases O st u ch sp hist en m with
    ⟨e', st', heq, _⟩ | ⟨st2, r0, sp2, heq, ht, hc, hg, _⟩
  · rw [heq] at h
    simp at h
  · rw [heq] at h
    cases hgen : O.gen st2.nGen m (chat_messages sp2 hist u) with
    | ok g =>
      rw [generate_reply_gen_ok O st2 r0 sp2 u hist m g hgen] at h
      simp only at h
      injection h with h
      rw [hg] at hgen
      exact Or.inl ⟨_, g, hgen, by rw [← h], by rw [← h]⟩
    | error e =>
      rw [generate_reply_gen_err O st2 r0 sp2 u hist m e hgen] at h
      simp only at h
      injection h with h
      rw [hg] at hgen
      exact Or.inr ⟨_, e, hgen, by rw [← h]; exact ht, by rw [← h]; exact hc⟩

/-- C9 witness: with a successful generation call of 100 prompt and 50
completion tokens, the returned result carries exactly that usage and the
linear cost. -/
theorem cost_counts_only_generation_witness :
    (∃ msgs g, oracleGenOk.gen 0 "gpt-4o-ca" msgs = .ok g ∧
       ({ emptyResult with
           response := "好的", tokens_used := 150,
           cost := ((100 : Nat) : ℚ) * (5 / 1000000) +
                   ((50 : Nat) : ℚ) * (15 / 1000000) } :
         ChatTurnResult).tokens_used = g.total_tokens ∧
       ({ emptyResult with
           response := "好的", tokens_used := 150,
           cost := ((100 : Nat) : ℚ) * (5 / 1000000) +
                   ((50 : Nat) : ℚ) * (15 / 1000000) } : ChatTurnResult).cost =
         (g.prompt_tokens : ℚ) * (5 / 1000000) +
         (g.completion_tokens : ℚ) * (15 / 1000000)) ∨
    (∃ msgs e, oracleGenOk.gen 0 "gpt-4o-ca" msgs = .error e ∧
       ({ emptyResult with
           response := "好的", tokens_used := 150,
           cost := ((100 : Nat) : ℚ) * (5 / 1000000) +
                   ((50 : Nat) : ℚ) * (15 / 1000000) } :
         ChatTurnResult).tokens_used = 0 ∧
       ({ emptyResult with
           response := "好的", tokens_used := 150,
           cost := ((100 : Nat) : ℚ) * (5 / 1000000) +
                   ((50 : Nat) : ℚ) * (15 / 1000000) } : ChatTurnResult).cost
         = 0) :=
  cost_counts_only_generation oracleGenOk St0 "你好" ⟨"悟空"⟩ "sys" [] true
    "gpt-4o-ca"
    { emptyResult with
        response := "好的", tokens_used := 150,
        cost := ((100 : Nat) : ℚ) * (5 / 1000000) +
                ((50 : Nat) : ℚ) * (15 / 1000000) } rfl

end MCP

namespace MCP

/-- C2 (amended): `chat_with_mcp` never raises — for every input and every
behaviour of the collaborators — provided every decision reply that parses
as JSON conforms to the documented schema in the two fields the
orchestrator reads (`need_search` a boolean, `search_query` a string); in
that case every failure path still produces a well-formed
`ChatTurnResult`.  Without that proviso the claim is false: see the
counterexample, where a parsed reply lacking `need_search` makes the turn
raise `KeyError` to the host. -/
theorem chat_never_raises_of_wf (O : Oracles) (st : St) (u : String)
    (ch : Character) (sp : String) (hist : List Msg) (en : Bool) (m : String)
    (H : ∀ i a c v, O.decide i a c = .ok (some v) → wellFormedDecision v) :
    ∃ r st', chat_with_mcp O st u ch sp hist en m = (.ok r, st') := by
  cases en with
  | false =>
    have h0 : chat_with_mcp O st u ch sp hist false m =
        generate_reply O st emptyResult sp u hist m := by
      simp [chat_with_mcp]
    obtain ⟨r', heq, _⟩ := generate_reply_ok O st emptyResult sp u hist m
    exact ⟨r', _, h0.trans heq⟩
  | true =>
    cases hdec : O.decide st.nDecide u ch.name with
    | error e =>
      exact chat_total_of_decision O st u ch sp hist m defaultDecision
        (should_search_of_fail O st u ch.name (Or.inl ⟨e, hdec⟩))
        defaultDecision_wf
    | ok o =>
      cases o with
      | none =>
        exact chat_total_of_decision O st u ch sp hist m defaultDecision
          (should_search_of_fail O st u ch.name (Or.inr hdec))
          defaultDecision_wf
      | some v =>
        exact chat_total_of_decision O st u ch sp hist m v
          (should_search_of_ok O st u ch.name v hdec) (H _ _ _ _ hdec)

/-- C2 counterexample: when the decision model replies with the valid JSON
object `\x7b\x7d` (no `need_search` field), `chat_with_mcp` raises
`KeyError` at `decision['need_search']` — the exception escapes to the
hosting application, so the claim as stated is false. -/
theorem chat_raises_cex :
    (chat_with_mcp oracleBadReply St0 "你好" ⟨"悟空"⟩ "sys" [] true
      "gpt-4o-ca").1 = .error (.keyError "need_search") := rfl

/-- C2 witness: with schema-conforming decision replies the turn completes
with an ok result. -/
theorem chat_never_raises_witness :
    ∃ r st', chat_with_mcp oracleGoodSearch St0 "你好" ⟨"悟空"⟩ "sys" [] true
      "gpt-4o-ca" = (.ok r, st') :=
  chat_never_raises_of_wf oracleGoodSearch St0 "你好" ⟨"悟空"⟩ "sys" [] true
    "gpt-4o-ca"
    (by
      intro i a c v h
      injection h with h
      injection h with h
      rw [← h]
      exact ⟨⟨true, rfl⟩, ⟨"泰山 传说", rfl⟩⟩)

/-- C3 (amended): if the decision-model call raises or its reply is not
parseable JSON, `should_search` returns exactly the safe default
(need_search false, empty search_query, reason "决策失败" — the code's
"decision failed" literal); consequently the whole turn reduces to
`generate_reply` on the unmodified original system prompt (so the final
message list starts with it), and `search_performed` is false in the
returned result.  A reply that parses as JSON but lacks the documented
fields is returned as-is, not replaced by the default: see the
counterexample. -/
theorem decision_failure_safe_default (O : Oracles) (st : St) (u : String)
    (ch : Character) (sp : String) (hist : List Msg) (m : String)
    (H : (∃ e, O.decide st.nDecide u ch.name = .error e) ∨
         O.decide st.nDecide u ch.name = .ok none) :
    should_search O st u ch.name =
      (JValue.obj [("need_search", .bool false), ("search_query", .str ""),
                   ("reason", .str "决策失败")],
       { st with nDecide := st.nDecide + 1 }) ∧
    chat_with_mcp O st u ch sp hist true m =
      generate_reply O { st with nDecide := st.nDecide + 1 } emptyResult sp u
        hist m ∧
    ∀ r, (chat_with_mcp O st u ch sp hist true m).1 = .ok r →
      r.search_performed = false := by
  have hss := should_search_of_fail O st u ch.name H
  have hns : defaultDecision.sub "need_search" = .ok (.bool false) := rfl
  have hchat : chat_with_mcp O st u ch sp hist true m =
      generate_reply O { st with nDecide := st.nDecide + 1 } emptyResult sp u
        hist m := by
    simp only [chat_with_mcp, if_true, hss, hns, JValue.truthy,
      Bool.false_eq_true, if_false]
  refine ⟨hss, hchat, ?_⟩
  intro r h
  rw [hchat] at h
  obtain ⟨r', heq, hp, _⟩ :=
    generate_reply_ok O { st with nDecide := st.nDecide + 1 } emptyResult sp u
      hist m
  rw [heq] at h
  simp only at h
  injection h with h
  rw [← h]
  exact hp

/-- C3 counterexample: the decision reply `\x7b\x7d` is valid JSON but
malformed with respect to the documented three-field shape, and
`should_search` returns it unchanged instead of the safe default — so the
claim as stated (every malformed reply maps to the default) is false. -/
theorem decision_malformed_reply_cex :
    (should_search oracleBadReply St0 "你好" "悟空").1 = JValue.obj [] ∧
    JValue.obj [] ≠ defaultDecision := by
  constructor
  · rfl
  · simp [defaultDecision]

/-- C3 witness: with a decision call that raises, the turn returns the
plain-generation result (here the generation also fails, giving the
apology) and `search_performed` is false. -/
theorem decision_failure_safe_default_witness :
    (∃ e, oracleDecideRaises.decide 0 "你好" "悟空" = .error e) ∧
    (chat_with_mcp oracleDecideRaises St0 "你好" ⟨"悟空"⟩ "sys" [] true
      "gpt-4o-ca").1 =
      .ok { emptyResult with response := "抱歉，回复生成失败：boom" } ∧
    ({ emptyResult with
        response := "抱歉，回复生成失败：boom" } :
      ChatTurnResult).search_performed = false :=
  ⟨⟨"网络错误", rfl⟩, rfl,
    (decision_failure_safe_default oracleDecideRaises St0 "你好" ⟨"悟空"⟩ "sys"
        [] "gpt-4o-ca" (Or.inl ⟨"网络错误", rfl⟩)).2.2
      { emptyResult with response := "抱歉，回复生成失败：boom" } rfl⟩

/-- C4 (amended): for any query and any behaviour of the search backend and
fetcher, `search_web` never raises (it is total and returns a plain list,
possibly empty); each entry's `url` is the backend hit's `href` value
(empty string when absent), so whenever every hit the backend returns
carries a non-empty `href`, every entry of the result has a non-empty
`url`.  Without that proviso an entry can carry an empty `url`: see the
counterexample. -/
theorem search_web_urls_from_href (O : Oracles) (st : St) (q : JValue) (n : Nat)
    (H : ∀ call s hits, O.text call s q n = .ok hits →
      ∀ h ∈ hits, h.href.getD "" ≠ "") :
    ∀ r ∈ (search_web O st q n).1, r.url ≠ "" := by
  have key : ∀ L, ∀ r ∈ tryStrategies O st.nSearch q n L, r.url ≠ "" := by
    intro L
    induction L with
    | nil => intro r hr; simp [tryStrategies] at hr
    | cons s rest ih =>
      intro r hr
      rw [tryStrategies] at hr
      cases htext : O.text st.nSearch s q n with
      | error e =>
        simp only [htext] at hr
        exact ih r hr
      | ok hits =>
        simp only [htext] at hr
        by_cases hhits : hits = []
        · rw [if_pos hhits] at hr
          exact ih r hr
        · rw [if_neg hhits] at hr
          obtain ⟨hit, hmem, hbuild⟩ := List.mem_map.mp hr
          rw [← hbuild]
          exact H _ _ _ htext hit hmem
  exact key search_strategies

/-- C4 counterexample: a backend hit without an `href` field produces a
non-empty result list whose single entry has an empty `url` — so the claim
as stated (every entry of a non-empty result holds a non-empty url) is
false. -/
theorem search_web_empty_url_cex :
    (search_web oracleNoHref St0 (.str "泰山") 8).1 ≠ [] ∧
    ((search_web oracleNoHref St0 (.str "泰山") 8).1).map SearchResult.url
      = [""] := by
  constructor
  · decide
  · decide

/-- C4 witness: with hits that all carry `href` "http://a", the assembled
entry is in the result and its url is non-empty. -/
theorem search_web_urls_witness :
    (⟨"标题", "摘要", "网页内容", "http://a"⟩ : SearchResult) ∈
      (search_web oracleHref St0 (.str "泰山") 8).1 ∧
    (⟨"标题", "摘要", "网页内容", "http://a"⟩ : SearchResult).url ≠ "" :=
  ⟨by decide,
    search_web_urls_from_href oracleHref St0 (.str "泰山") 8
      (by
        intro call s hits heq hh hmem
        injection heq with heq
        rw [← heq] at hmem
        rw [List.mem_singleton.mp hmem]
        decide)
      ⟨"标题", "摘要", "网页内容", "http://a"⟩ (by decide)⟩

end MCP

namespace MCP

/-- C1 (amended): starting from a fresh manager, two turns with
`enable_search = true` whose decisions both yield a truthy `need_search`
and the same string `search_query` q perform exactly one underlying
search+summarize sequence across the two runs — provided the first run's
underlying search returns a non-empty result list (then the entry is
cached and the second run hits the cache) — and the second run's
`search_summary` equals the first run's.  When the first search comes back
empty nothing is cached and the second run searches again: see the
counterexample. -/
theorem cache_single_search (O : Oracles) (q u1 c1 sp1 u2 c2 sp2 : String)
    (h1 h2 : List Msg) (m1 m2 : String) (d1 d2 ns1 ns2 : JValue)
    (Hd1 : O.decide 0 u1 c1 = .ok (some d1))
    (Hn1 : d1.sub "need_search" = .ok ns1)
    (Ht1 : ns1.truthy = true)
    (Hq1 : d1.sub "search_query" = .ok (.str q))
    (Hd2 : O.decide 1 u2 c2 = .ok (some d2))
    (Hn2 : d2.sub "need_search" = .ok ns2)
    (Ht2 : ns2.truthy = true)
    (Hq2 : d2.sub "search_query" = .ok (.str q))
    (Hne : (search_web O (⟨[], 1, 0, 0, 0⟩ : St) (.str q) 8).1 ≠ []) :
    ∃ r1 r2,
      (chat_with_mcp O St0 u1 ⟨c1⟩ sp1 h1 true m1).1 = .ok r1 ∧
      (chat_with_mcp O (chat_with_mcp O St0 u1 ⟨c1⟩ sp1 h1 true m1).2
        u2 ⟨c2⟩ sp2 h2 true m2).1 = .ok r2 ∧
      (chat_with_mcp O (chat_with_mcp O St0 u1 ⟨c1⟩ sp1 h1 true m1).2
        u2 ⟨c2⟩ sp2 h2 true m2).2.nSearch = 1 ∧
      (chat_with_mcp O (chat_with_mcp O St0 u1 ⟨c1⟩ sp1 h1 true m1).2
        u2 ⟨c2⟩ sp2 h2 true m2).2.nSumm = 1 ∧
      r2.search_summary = r1.search_summary := by
  have hss1 : should_search O St0 u1 c1 = (d1, (⟨[], 1, 0, 0, 0⟩ : St)) :=
    should_search_of_ok O St0 u1 c1 d1 Hd1
  obtain ⟨sm, hsm⟩ := summarize_nonempty_spec O (⟨[], 1, 1, 0, 0⟩ : St) (.str q)
    (search_web O (⟨[], 1, 0, 0, 0⟩ : St) (.str q) 8).1 Hne
  have hsp1 : searchPhase O (⟨[], 1, 0, 0, 0⟩ : St) (.str q) (HKey.str q) =
      (sm, (search_web O (⟨[], 1, 0, 0, 0⟩ : St) (.str q) 8).1,
       ⟨[(HKey.str q,
          ⟨sm, (search_web O (⟨[], 1, 0, 0, 0⟩ : St) (.str q) 8).1⟩)],
        1, 1, 1, 0⟩) := by
    simp only [searchPhase,
      show lookupCache (⟨[], 1, 0, 0, 0⟩ : St).search_cache (HKey.str q) = none
        from rfl,
      if_neg Hne,
      show (search_web O (⟨[], 1, 0, 0, 0⟩ : St) (.str q) 8).2 =
        (⟨[], 1, 1, 0, 0⟩ : St) from rfl,
      hsm]
  have hrun1 : chat_with_mcp O St0 u1 ⟨c1⟩ sp1 h1 true m1 =
      generate_reply O
        (⟨[(HKey.str q,
            ⟨sm, (search_web O (⟨[], 1, 0, 0, 0⟩ : St) (.str q) 8).1⟩)],
          1, 1, 1, 0⟩ : St)
        { emptyResult with
            search_performed := true,
            search_query := .str q,
            search_summary := sm,
            search_results :=
              (search_web O (⟨[], 1, 0, 0, 0⟩ : St) (.str q) 8).1 }
        (sp1 ++ "\n\n" ++ enhance_context u1 c1 sm) u1 h1 m1 := by
    simp only [chat_with_mcp, if_true, hss1, Hn1, if_pos Ht1, Hq1,
      JValue.toKey, hsp1]
  obtain ⟨r1, hgen1, _, _, hsum1, _, _⟩ :=
    generate_reply_ok O
      (⟨[(HKey.str q,
          ⟨sm, (search_web O (⟨[], 1, 0, 0, 0⟩ : St) (.str q) 8).1⟩)],
        1, 1, 1, 0⟩ : St)
      { emptyResult with
          search_performed := true,
          search_query := .str q,
          search_summary := sm,
          search_results :=
            (search_web O (⟨[], 1, 0, 0, 0⟩ : St) (.str q) 8).1 }
      (sp1 ++ "\n\n" ++ enhance_context u1 c1 sm) u1 h1 m1
  have hout1 : chat_with_mcp O St0 u1 ⟨c1⟩ sp1 h1 true m1 =
      (.ok r1,
       (⟨[(HKey.str q,
           ⟨sm, (search_web O (⟨[], 1, 0, 0, 0⟩ : St) (.str q) 8).1⟩)],
         1, 1, 1, 1⟩ : St)) := hrun1.trans hgen1
  have hss2 : should_search O
      (⟨[(HKey.str q,
          ⟨sm, (search_web O (⟨[], 1, 0, 0, 0⟩ : St) (.str q) 8).1⟩)],
        1, 1, 1, 1⟩ : St) u2 c2 =
      (d2,
       (⟨[(HKey.str q,
           ⟨sm, (search_web O (⟨[], 1, 0, 0, 0⟩ : St) (.str q) 8).1⟩)],
         2, 1, 1, 1⟩ : St)) :=
    should_search_of_ok O _ u2 c2 d2 Hd2
  have hlook : lookupCache
      [(HKey.str q,
        ⟨sm, (search_web O (⟨[], 1, 0, 0, 0⟩ : St) (.str q) 8).1⟩)]
      (HKey.str q) =
      some ⟨sm, (search_web O (⟨[], 1, 0, 0, 0⟩ : St) (.str q) 8).1⟩ := by
    simp [lookupCache]
  have hsp2 : searchPhase O
      (⟨[(HKey.str q,
          ⟨sm, (search_web O (⟨[], 1, 0, 0, 0⟩ : St) (.str q) 8).1⟩)],
        2, 1, 1, 1⟩ : St) (.str q) (HKey.str q) =
      (sm, (search_web O (⟨[], 1, 0, 0, 0⟩ : St) (.str q) 8).1,
       (⟨[(HKey.str q,
           ⟨sm, (search_web O (⟨[], 1, 0, 0, 0⟩ : St) (.str q) 8).1⟩)],
         2, 1, 1, 1⟩ : St)) := by
    simp only [searchPhase, hlook]
  have hrun2 : chat_with_mcp O
      (⟨[(HKey.str q,
          ⟨sm, (search_web O (⟨[], 1, 0, 0, 0⟩ : St) (.str q) 8).1⟩)],
        1, 1, 1, 1⟩ : St) u2 ⟨c2⟩ sp2 h2 true m2 =
      generate_reply O
        (⟨[(HKey.str q,
            ⟨sm, (search_web O (⟨[], 1, 0, 0, 0⟩ : St) (.str q) 8).1⟩)],
          2, 1, 1, 1⟩ : St)
        { emptyResult with
            search_performed := true,
            search_query := .str q,
            search_summary := sm,
            search_results :=
              (search_web O (⟨[], 1, 0, 0, 0⟩ : St) (.str q) 8).1 }
        (sp2 ++ "\n\n" ++ enhance_context u2 c2 sm) u2 h2 m2 := by
    simp only [chat_with_mcp, if_true, hss2, Hn2, if_pos Ht2, Hq2,
      JValue.toKey, hsp2]
  obtain ⟨r2, hgen2, _, _, hsum2, _, _⟩ :=
    generate_reply_ok O
      (⟨[(HKey.str q,
          ⟨sm, (search_web O (⟨[], 1, 0, 0, 0⟩ : St) (.str q) 8).1⟩)],
        2, 1, 1, 1⟩ : St)
      { emptyResult with
          search_performed := true,
          search_query := .str q,
          search_summary := sm,
          search_results :=
            (search_web O (⟨[], 1, 0, 0, 0⟩ : St) (.str q) 8).1 }
      (sp2 ++ "\n\n" ++ enhance_context u2 c2 sm) u2 h2 m2
  have hout2 : chat_with_mcp O
      (⟨[(HKey.str q,
          ⟨sm, (search_web O (⟨[], 1, 0, 0, 0⟩ : St) (.str q) 8).1⟩)],
        1, 1, 1, 1⟩ : St) u2 ⟨c2⟩ sp2 h2 true m2 =
      (.ok r2,
       (⟨[(HKey.str q,
           ⟨sm, (search_web O (⟨[], 1, 0, 0, 0⟩ : St) (.str q) 8).1⟩)],
         2, 1, 1, 2⟩ : St)) := hrun2.trans hgen2
  refine ⟨r1, r2, ?_, ?_, ?_, ?_, ?_⟩
  · rw [hout1]
  · rw [hout1]
    exact hout2 ▸ rfl
  · rw [hout1]
    rw [show ((Except.ok r1 : Except PyErr ChatTurnResult),
      (⟨[(HKey.str q,
          ⟨sm, (search_web O (⟨[], 1, 0, 0, 0⟩ : St) (.str q) 8).1⟩)],
        1, 1, 1, 1⟩ : St)).2 =
      (⟨[(HKey.str q,
          ⟨sm, (search_web O (⟨[], 1, 0, 0, 0⟩ : St) (.str q) 8).1⟩)],
        1, 1, 1, 1⟩ : St) from rfl, hout2]
  · rw [hout1]
    rw [show ((Except.ok r1 : Except PyErr ChatTurnResult),
      (⟨[(HKey.str q,
          ⟨sm, (search_web O (⟨[], 1, 0, 0, 0⟩ : St) (.str q) 8).1⟩)],
        1, 1, 1, 1⟩ : St)).2 =
      (⟨[(HKey.str q,
          ⟨sm, (search_web O (⟨[], 1, 0, 0, 0⟩ : St) (.str q) 8).1⟩)],
        1, 1, 1, 1⟩ : St) from rfl, hout2]
  · exact hsum2.trans hsum1.symm

/-- C1 counterexample: with a decision that always asks to search the same
query and a backend that finds nothing, two fresh runs perform two
underlying searches — the claim's "exactly one underlying search across
the two runs" fails when the search result is empty (nothing is cached). -/
theorem cache_single_search_cex :
    (chat_with_mcp oracleNoResults
      (chat_with_mcp oracleNoResults St0 "泰山的传说故事" ⟨"山神"⟩ "sys" []
        true "gpt-4o-ca").2
      "泰山的传说故事" ⟨"山神"⟩ "sys" [] true "gpt-4o-ca").2.nSearch = 2 := by
  decide

/-- C1 witness: with a backend whose first strategy finds a hit, two fresh
runs perform one search and one summarization in total and return equal
summaries. -/
theorem cache_single_search_witness :
    ∃ r1 r2,
      (chat_with_mcp oracleGoodSearch St0 "泰山的传说故事" ⟨"山神"⟩ "sys" []
        true "gpt-4o-ca").1 = .ok r1 ∧
      (chat_with_mcp oracleGoodSearch
        (chat_with_mcp oracleGoodSearch St0 "泰山的传说故事" ⟨"山神"⟩ "sys" []
          true "gpt-4o-ca").2
        "泰山的传说故事" ⟨"山神"⟩ "sys" [] true "gpt-4o-ca").1 = .ok r2 ∧
      (chat_with_mcp oracleGoodSearch
        (chat_with_mcp oracleGoodSearch St0 "泰山的传说故事" ⟨"山神"⟩ "sys" []
          true "gpt-4o-ca").2
        "泰山的传说故事" ⟨"山神"⟩ "sys" [] true "gpt-4o-ca").2.nSearch = 1 ∧
      (chat_with_mcp oracleGoodSearch
        (chat_with_mcp oracleGoodSearch St0 "泰山的传说故事" ⟨"山神"⟩ "sys" []
          true "gpt-4o-ca").2
        "泰山的传说故事" ⟨"山神"⟩ "sys" [] true "gpt-4o-ca").2.nSumm = 1 ∧
      r2.search_summary = r1.search_summary :=
  cache_single_search oracleGoodSearch "泰山 传说" "泰山的传说故事" "山神"
    "sys" "泰山的传说故事" "山神" "sys" [] [] "gpt-4o-ca" "gpt-4o-ca"
    (decisionYes "泰山 传说") (decisionYes "泰山 传说") (.bool true) (.bool true)
    rfl rfl rfl rfl rfl rfl rfl rfl (by decide)

/-- C10: (1) every chat turn preserves the invariant that each cache entry
holds a non-empty result list — a query whose search returned an empty
list is never written to the cache; (2) consequently, when the backend
keeps finding nothing, a later turn that decides on the same query misses
the cache and re-runs the full search: after two fresh turns the cache is
still empty and two searches were performed. -/
theorem cache_entries_nonempty_and_rerun :
    (∀ (O : Oracles) (st : St) (u : String) (ch : Character) (sp : String)
       (hist : List Msg) (en : Bool) (m : String),
       cacheInv st → cacheInv (chat_with_mcp O st u ch sp hist en m).2) ∧
    (∀ (O : Oracles) (q u1 c1 sp1 u2 c2 sp2 : String) (h1 h2 : List Msg)
       (m1 m2 : String) (d1 d2 ns1 ns2 : JValue),
       O.decide 0 u1 c1 = .ok (some d1) →
       d1.sub "need_search" = .ok ns1 →
       ns1.truthy = true →
       d1.sub "search_query" = .ok (.str q) →
       O.decide 1 u2 c2 = .ok (some d2) →
       d2.sub "need_search" = .ok ns2 →
       ns2.truthy = true →
       d2.sub "search_query" = .ok (.str q) →
       (∀ c s qq nn, O.text c s qq nn = .ok []) →
       (chat_with_mcp O St0 u1 ⟨c1⟩ sp1 h1 true m1).2.search_cache = [] ∧
       (chat_with_mcp O (chat_with_mcp O St0 u1 ⟨c1⟩ sp1 h1 true m1).2
         u2 ⟨c2⟩ sp2 h2 true m2).2.search_cache = [] ∧
       (chat_with_mcp O (chat_with_mcp O St0 u1 ⟨c1⟩ sp1 h1 true m1).2
         u2 ⟨c2⟩ sp2 h2 true m2).2.nSearch = 2) :=
  ⟨chat_preserves_cacheInv,
    fun O q u1 c1 sp1 u2 c2 sp2 h1 h2 m1 m2 d1 d2 ns1 ns2 hd1 hn1 ht1 hq1 hd2
        hn2 ht2 hq2 htext =>
      empty_search_rerun O q u1 c1 sp1 u2 c2 sp2 h1 h2 m1 m2 d1 d2 ns1 ns2
        hd1 hn1 ht1 hq1 hd2 hn2 ht2 hq2 htext⟩

/-- C10 witness: with a backend that finds nothing, a fresh turn keeps the
invariant, the cache stays empty over two turns and the search runs
twice. -/
theorem cache_entries_nonempty_and_rerun_witness :
    cacheInv (chat_with_mcp oracleNoResults St0 "泰山的传说故事" ⟨"山神"⟩ "sys"
      [] true "gpt-4o-ca").2 ∧
    ((chat_with_mcp oracleNoResults St0 "泰山的传说故事" ⟨"山神"⟩ "sys" [] true
       "gpt-4o-ca").2.search_cache = [] ∧
     (chat_with_mcp oracleNoResults
       (chat_with_mcp oracleNoResults St0 "泰山的传说故事" ⟨"山神"⟩ "sys" []
         true "gpt-4o-ca").2
       "泰山的传说故事" ⟨"山神"⟩ "sys" [] true "gpt-4o-ca").2.search_cache
       = [] ∧
     (chat_with_mcp oracleNoResults
       (chat_with_mcp oracleNoResults St0 "泰山的传说故事" ⟨"山神"⟩ "sys" []
         true "gpt-4o-ca").2
       "泰山的传说故事" ⟨"山神"⟩ "sys" [] true "gpt-4o-ca").2.nSearch = 2) :=
  ⟨cache_entries_nonempty_and_rerun.1 oracleNoResults St0 "泰山的传说故事"
      ⟨"山神"⟩ "sys" [] true "gpt-4o-ca"
      (fun p hp => absurd hp (List.not_mem_nil p)),
    cache_entries_nonempty_and_rerun.2 oracleNoResults "泰山 传说"
      "泰山的传说故事" "山神" "sys" "泰山的传说故事" "山神" "sys" [] []
      "gpt-4o-ca" "gpt-4o-ca" (decisionYes "泰山 传说") (decisionYes "泰山 传说")
      (.bool true) (.bool true) rfl rfl rfl rfl rfl rfl rfl rfl
      (fun _ _ _ _ => rfl)⟩

end MCP
